import Mathlib

/-!
Verification of the "24 MILA BACI" backend (FastAPI + MongoDB).

The route handlers of `src/main.py` and the schemas of `src/schemas.py` are
shallowly embedded as pure Lean functions over an explicit store state `DB`.
Prices are modelled as rationals, identifiers as strings, HTTP exceptions as
an explicit error type carrying the status code.
-/

namespace Baci

/-- The error kinds raised by the route layer, each mapped to an HTTP status
code exactly as in `main.py` (HTTPException status_code arguments) and the
Pydantic validation layer. -/
inductive Err where
  | invalidId
  | notFound
  | unauthorized
  | validation
deriving DecidableEq, Repr

/-- HTTP status code attached to each error kind. -/
def Err.status : Err → Nat
  | .invalidId => 400
  | .notFound => 404
  | .unauthorized => 401
  | .validation => 400

/-- A hexadecimal digit, as accepted by BSON ObjectId parsing. -/
def isHexChar (c : Char) : Bool :=
  c.isDigit || decide (Char.ofNat 97 ≤ c ∧ c ≤ Char.ofNat 102)
    || decide (Char.ofNat 65 ≤ c ∧ c ≤ Char.ofNat 70)

/-- A well-formed BSON ObjectId string: 24 hexadecimal characters.
`bson.ObjectId(id_str)` accepts exactly these (raising otherwise). -/
def isValidObjectId (s : String) : Bool :=
  s.data.length == 24 && s.data.all isHexChar

/-- Function to_object_id from `main.py`: parses an identifier string, raising
HTTP 400 "Invalid ID format" when malformed. -/
def to_object_id (s : String) : Except Err String :=
  if isValidObjectId s then .ok s else .error .invalidId

/-- A stored Event document, fields as in the `Event` schema of
`schemas.py` (title, date, dj, price required; description, image optional). -/
structure EventDoc where
  title : String
  date : String
  dj : String
  price : ℚ
  description : Option String
  image : Option String
deriving DecidableEq, Repr

/-- A stored TicketPurchase document, fields as written by
`purchase_ticket` in `main.py`. -/
structure PurchaseDoc where
  buyer_name : String
  email : String
  phone : Option String
  event_id : String
  quantity : ℕ
  total_price : ℚ
deriving DecidableEq, Repr

/-- The document store: the two collections touched by the routes.
MongoDB collections are modelled as association lists keyed by the
stringified BSON id. -/
structure DB where
  event : List (String × EventDoc)
  ticketpurchase : List PurchaseDoc
deriving DecidableEq, Repr

def emptyDB : DB := ⟨[], []⟩

/-- Modelled from the spec: the store-assigned identifier returned by
`database.create_document` (the file `database.py` is imported by `main.py`
but absent from the sources). Spec section 4.1 describes it as "the newly
assigned unique identifier as a string"; it is modelled as an opaque fresh
string derived from the collection size. -/
def freshId (n : Nat) : String := "oid" ++ toString n

/-- Modelled from the spec: `database.create_document("event", doc)`
(file `database.py` is not among the sources). Spec section 4.1:
"insert(collection_name, record) → identifier: serializes record fields to a
storage document, inserts into the named collection, returns the newly
assigned unique identifier as a string. Side effect: one durable write." -/
def insertEventDoc (db : DB) (d : EventDoc) : String × DB :=
  (freshId db.event.length,
   { db with event := db.event ++ [(freshId db.event.length, d)] })

/-- Modelled from the spec: `database.create_document("ticketpurchase", doc)`
(file `database.py` is not among the sources); same contract as
`insertEventDoc` but on the ticketpurchase collection. -/
def insertPurchaseDoc (db : DB) (d : PurchaseDoc) : String × DB :=
  (freshId db.ticketpurchase.length,
   { db with ticketpurchase := db.ticketpurchase ++ [d] })

/-- The raw JSON payload of `POST /api/events`, before Pydantic validation:
each field either present or absent. -/
structure RawEventPayload where
  title : Option String
  date : Option String
  dj : Option String
  price : Option ℚ
  description : Option String
  image : Option String
deriving DecidableEq, Repr

/-- Pydantic validation of the `Event` schema (`schemas.py`): title, date,
dj, price are required; price carries `ge=0`. Failure is reported as a
client-side validation error. -/
def validateEvent (p : RawEventPayload) : Except Err EventDoc :=
  match p.title, p.date, p.dj, p.price with
  | some t, some dt, some dj, some pr =>
      if pr < 0 then .error .validation
      else .ok ⟨t, dt, dj, pr, p.description, p.image⟩
  | _, _, _, _ => .error .validation

/-- Handler create_event from `main.py`: validates the payload against the Event
schema, inserts it, returns the new identifier. -/
def create_event (p : RawEventPayload) (db : DB) : Except Err String × DB :=
  match validateEvent p with
  | .error e => (.error e, db)
  | .ok d =>
      let r := insertEventDoc db d
      (.ok r.1, r.2)

/-- The serialized response of `GET /api/events/{id}`: the internal
identifier exposed as `id` next to the document fields. -/
structure GetResp where
  id : String
  doc : EventDoc
deriving DecidableEq, Repr

/-- Handler get_event from `main.py`: parses the identifier, does a point lookup,
404 when absent. Read-only. -/
def get_event (event_id : String) (db : DB) : Except Err GetResp :=
  match to_object_id event_id with
  | .error e => .error e
  | .ok oid =>
      match db.event.lookup oid with
      | none => .error .notFound
      | some d => .ok ⟨oid, d⟩

/-- The `EventUpdate` Pydantic model of `main.py`: every field optional,
defaulting to null. -/
structure EventUpdate where
  title : Option String
  date : Option String
  dj : Option String
  price : Option ℚ
  description : Option String
  image : Option String
deriving DecidableEq, Repr

/-- Whether the updates dict of the handler -- the payload fields whose
value is not None -- is nonempty: at least one field present and non-null. -/
def EventUpdate.hasUpdates (p : EventUpdate) : Bool :=
  p.title.isSome || p.date.isSome || p.dj.isSome || p.price.isSome
    || p.description.isSome || p.image.isSome

/-- The effect of MongoDB `$set` with the non-null payload fields on one
stored document: present fields overwrite, absent fields persist. -/
def applyEventUpdate (p : EventUpdate) (d : EventDoc) : EventDoc :=
  { title := p.title.getD d.title
    date := p.date.getD d.date
    dj := p.dj.getD d.dj
    price := p.price.getD d.price
    description := match p.description with
      | some s => some s
      | none => d.description
    image := match p.image with
      | some s => some s
      | none => d.image }

/-- MongoDB `update_one`: rewrite the first document whose key matches,
leave the rest untouched. -/
def updateFirst (k : String) (f : EventDoc → EventDoc) :
    List (String × EventDoc) → List (String × EventDoc)
  | [] => []
  | (k', d) :: rest =>
      if k == k' then (k', f d) :: rest else (k', d) :: updateFirst k f rest

/-- MongoDB `delete_one`: remove the first document whose key matches. -/
def removeFirst (k : String) :
    List (String × EventDoc) → List (String × EventDoc)
  | [] => []
  | (k', d) :: rest =>
      if k == k' then rest else (k', d) :: removeFirst k rest

structure UpdateResp where
  updated : Bool
deriving DecidableEq, Repr

/-- Handler update_event from `main.py`: filter out null fields; if nothing
remains, return updated=false without touching storage; otherwise parse the
identifier and issue `update_one` with `$set`; matched_count = 0 gives 404;
the response flag reports modified_count > 0 (the document actually
changed). -/
def update_event (event_id : String) (p : EventUpdate) (db : DB) :
    Except Err UpdateResp × DB :=
  if p.hasUpdates = false then (.ok ⟨false⟩, db)
  else
    match to_object_id event_id with
    | .error e => (.error e, db)
    | .ok oid =>
        match db.event.lookup oid with
        | none => (.error .notFound, db)
        | some d =>
            (.ok ⟨decide (applyEventUpdate p d ≠ d)⟩,
             { db with event := updateFirst oid (applyEventUpdate p) db.event })

structure DeleteResp where
  deleted : Bool
deriving DecidableEq, Repr

/-- Handler delete_event from `main.py`: parse the identifier, issue `delete_one`;
deleted_count = 0 gives 404, otherwise deleted=true. -/
def delete_event (event_id : String) (db : DB) :
    Except Err DeleteResp × DB :=
  match to_object_id event_id with
  | .error e => (.error e, db)
  | .ok oid =>
      match db.event.lookup oid with
      | none => (.error .notFound, db)
      | some _ => (.ok ⟨true⟩, { db with event := removeFirst oid db.event })

/-- The validated `PurchaseRequest` body of `main.py` (`quantity` carries
`ge=1`; email is format-validated upstream — neither constraint matters for
the handler's arithmetic). -/
structure PurchaseRequest where
  buyer_name : String
  email : String
  phone : Option String
  event_id : String
  quantity : ℕ
deriving DecidableEq, Repr

/-- The success response of `POST /api/tickets/purchase`. -/
structure PurchaseResp where
  id : String
  total_price : ℚ
  event_title : String
deriving DecidableEq, Repr

/-- Handler purchase_ticket from `main.py`: parse the event identifier, look up
the Event (404 when absent), compute total = event price × quantity
server-side, persist the TicketPurchase document, return id, total and the
event title. -/
def purchase_ticket (req : PurchaseRequest) (db : DB) :
    Except Err PurchaseResp × DB :=
  match to_object_id req.event_id with
  | .error e => (.error e, db)
  | .ok oid =>
      match db.event.lookup oid with
      | none => (.error .notFound, db)
      | some event =>
          let total : ℚ := event.price * (req.quantity : ℚ)
          let doc : PurchaseDoc :=
            ⟨req.buyer_name, req.email, req.phone, req.event_id,
             req.quantity, total⟩
          let r := insertPurchaseDoc db doc
          (.ok ⟨r.1, total, event.title⟩, r.2)

/-- Constant ADMIN_TOKEN = os.getenv("ADMIN_TOKEN", "")` from `main.py`: the
server-held secret read once at startup, defaulting to the empty string
when the environment variable is unset. -/
def ADMIN_TOKEN_of_env (env : Option String) : String := env.getD ""

/-- The `AdminEvent` Pydantic model of `main.py`: title, date, dj, price
required; description and image optional. -/
structure AdminEvent where
  title : String
  date : String
  dj : String
  price : ℚ
  description : Option String
  image : Option String
deriving DecidableEq, Repr

/-- The storage document written for an AdminEvent payload. -/
def AdminEvent.toDoc (e : AdminEvent) : EventDoc :=
  ⟨e.title, e.date, e.dj, e.price, e.description, e.image⟩

/-- Handler admin_add_event from `main.py`: exact string comparison of the caller
token against the configured secret, 401 on mismatch, otherwise insert. -/
def admin_add_event (admin_token : String) (event : AdminEvent)
    (token : String) (db : DB) : Except Err String × DB :=
  if token ≠ admin_token then (.error .unauthorized, db)
  else
    let r := insertEventDoc db event.toDoc
    (.ok r.1, r.2)

/-- Handler admin_edit_event from `main.py`: token gate, then delegates to
`update_event`. -/
def admin_edit_event (admin_token : String) (event_id : String)
    (p : EventUpdate) (token : String) (db : DB) :
    Except Err UpdateResp × DB :=
  if token ≠ admin_token then (.error .unauthorized, db)
  else update_event event_id p db

/-- Handler admin_delete_event from `main.py`: token gate, then delegates to
`delete_event`. -/
def admin_delete_event (admin_token : String) (event_id : String)
    (token : String) (db : DB) : Except Err DeleteResp × DB :=
  if token ≠ admin_token then (.error .unauthorized, db)
  else delete_event event_id db

/-! ### Concrete fixtures used by witnesses and counterexamples -/

instance {α β : Type} [DecidableEq α] [DecidableEq β] : DecidableEq (Except α β) := fun a b =>
  match a, b with
  | .ok x, .ok y =>
      if h : x = y then .isTrue (by rw [h])
      else .isFalse (by intro hc; cases hc; exact h rfl)
  | .error x, .error y =>
      if h : x = y then .isTrue (by rw [h])
      else .isFalse (by intro hc; cases hc; exact h rfl)
  | .ok _, .error _ => .isFalse (by intro hc; cases hc)
  | .error _, .ok _ => .isFalse (by intro hc; cases hc)

/-- A well-formed ObjectId string used in concrete instances. -/
def oidW : String := "0123456789abcdef01234567"

/-- A concrete stored Event priced at 10. -/
def evW : EventDoc := ⟨"Opening Night", "2099-01-01", "DJ X", 10, none, none⟩

/-- A store holding exactly the event `evW` under `oidW`. -/
def dbW : DB := ⟨[(oidW, evW)], []⟩

/-- The all-null update payload (every field absent). -/
def emptyUpdate : EventUpdate := ⟨none, none, none, none, none, none⟩

/-- An update payload carrying a new title and price only. -/
def updW : EventUpdate := ⟨some "Renamed Night", none, none, some 12, none, none⟩

/-- A purchase request for 3 tickets against `oidW`. -/
def reqBuy : PurchaseRequest := ⟨"Alice", "alice.example", none, oidW, 3⟩

/-- A purchase request against a well-formed identifier with no match. -/
def reqMiss : PurchaseRequest := ⟨"Bob", "bob.example", none, oidW, 2⟩

/-- A create payload with all required fields and a negative price. -/
def negPayload : RawEventPayload :=
  ⟨some "Bad", some "2099-12-31", some "DJ Z", some (-1), none, none⟩

/-- A create payload with all required fields and price 0. -/
def zeroPayload : RawEventPayload :=
  ⟨some "Free Night", some "2099-12-31", some "DJ Z", some 0, none, none⟩

/-- A concrete AdminEvent payload. -/
def adminEvW : AdminEvent := ⟨"Gala", "2099-06-01", "DJ Y", 25, none, none⟩

/-! ### Helper lemmas on the store model -/

theorem lookup_updateFirst_self (k : String) (f : EventDoc → EventDoc)
    (l : List (String × EventDoc)) (d : EventDoc) (h : l.lookup k = some d) :
    (updateFirst k f l).lookup k = some (f d) := by
  induction l with
  | nil => simp [List.lookup] at h
  | cons hd tl ih =>
      obtain ⟨k', d'⟩ := hd
      by_cases hk : k = k'
      · subst hk
        simp [List.lookup] at h
        simp [updateFirst, List.lookup, h]
      · have hb : (k == k') = false := by simp [hk]
        simp [List.lookup, hb] at h
        simp [updateFirst, List.lookup, hb, ih h]

theorem lookup_updateFirst_ne (k k' : String) (hne : k' ≠ k)
    (f : EventDoc → EventDoc) (l : List (String × EventDoc)) :
    (updateFirst k f l).lookup k' = l.lookup k' := by
  induction l with
  | nil => simp [updateFirst]
  | cons hd tl ih =>
      obtain ⟨k'', d''⟩ := hd
      by_cases hk : k = k''
      · subst hk
        have hb : (k' == k) = false := by simp [hne]
        simp [updateFirst, List.lookup, hb]
      · have hb : (k == k'') = false := by simp [hk]
        simp only [updateFirst, hb, if_false]
        by_cases hk2 : k' = k''
        · subst hk2
          simp [List.lookup]
        · have hb2 : (k' == k'') = false := by simp [hk2]
          simp [List.lookup, hb2, ih]

theorem lookup_eq_none_of_not_mem (k : String) (l : List (String × EventDoc))
    (h : k ∉ l.map Prod.fst) : l.lookup k = none := by
  induction l with
  | nil => simp [List.lookup]
  | cons hd tl ih =>
      obtain ⟨k', d'⟩ := hd
      have h1 : k ≠ k' := by
        intro he
        exact h (by simp [he])
      have h2 : k ∉ tl.map Prod.fst := by
        intro hm
        exact h (by simp [hm])
      have hb : (k == k') = false := by simp [h1]
      simp [List.lookup, hb, ih h2]

theorem lookup_removeFirst_self (k : String) (l : List (String × EventDoc))
    (hnd : (l.map Prod.fst).Nodup) : (removeFirst k l).lookup k = none := by
  induction l with
  | nil => simp [removeFirst, List.lookup]
  | cons hd tl ih =>
      obtain ⟨k', d'⟩ := hd
      rw [List.map_cons, List.nodup_cons] at hnd
      by_cases hk : k = k'
      · subst hk
        simp only [removeFirst, beq_self_eq_true, if_true]
        exact lookup_eq_none_of_not_mem k tl hnd.1
      · have hb : (k == k') = false := by simp [hk]
        simp [removeFirst, hb, List.lookup, ih hnd.2]

theorem applyEventUpdate_of_no_updates (p : EventUpdate) (d : EventDoc)
    (h : p.hasUpdates = false) : applyEventUpdate p d = d := by
  obtain ⟨t, dt, dj, pr, de, im⟩ := p
  cases t <;> cases dt <;> cases dj <;> cases pr <;> cases de <;> cases im <;>
    simp_all [EventUpdate.hasUpdates, applyEventUpdate]


/-! ### Claim theorems -/

/-- C1: every successful ticket purchase stores and returns a total_price
equal to the referenced Event's price times the requested quantity, computed
server-side from the stored Event (the request carries no total_price
field). -/
theorem purchase_total_price (db : DB) (req : PurchaseRequest) (ev : EventDoc)
    (hv : isValidObjectId req.event_id = true)
    (hf : db.event.lookup req.event_id = some ev) :
    purchase_ticket req db =
      (.ok ⟨freshId db.ticketpurchase.length, ev.price * (req.quantity : ℚ),
            ev.title⟩,
       { db with ticketpurchase := db.ticketpurchase ++
           [⟨req.buyer_name, req.email, req.phone, req.event_id, req.quantity,
             ev.price * (req.quantity : ℚ)⟩] }) := by
  simp [purchase_ticket, to_object_id, hv, hf, insertPurchaseDoc]

/-- C1 witness: purchasing quantity 3 against the stored Event priced 10
yields total_price exactly 30, in the response and in the stored record. -/
theorem purchase_total_price_wit :
    (purchase_ticket reqBuy dbW).1 = .ok ⟨freshId 0, 30, "Opening Night"⟩ ∧
    (purchase_ticket reqBuy dbW).2.ticketpurchase =
      [⟨"Alice", "alice.example", none, oidW, 3, 30⟩] := by
  have h := purchase_total_price dbW reqBuy evW (by decide) (by decide)
  rw [h]
  refine ⟨?_, ?_⟩ <;> simp [evW, reqBuy, dbW] <;> norm_num

/-- C2 counterexample: a well-formed identifier matching no stored Event,
updated with the all-null payload, yields updated=false (HTTP 200), not
NotFound — refuting "404 regardless of payload, including when the payload
is empty". -/
theorem update_nonexistent_empty_cex :
    isValidObjectId oidW = true ∧ emptyDB.event.lookup oidW = none ∧
    update_event oidW emptyUpdate emptyDB = (.ok ⟨false⟩, emptyDB) :=
  ⟨by decide, rfl, rfl⟩

/-- C2 amended: for every update request whose payload has at least one
present non-null field and whose well-formed identifier resolves to no
stored Event, the operation fails with NotFound (404) and the store is
untouched. -/
theorem update_nonexistent_nonempty (eid : String) (p : EventUpdate) (db : DB)
    (hp : p.hasUpdates = true) (hv : isValidObjectId eid = true)
    (hl : db.event.lookup eid = none) :
    update_event eid p db = (.error .notFound, db) ∧
    Err.notFound.status = 404 := by
  refine ⟨?_, rfl⟩
  simp [update_event, hp, to_object_id, hv, hl]

/-- C2 amended, witness: a title-only update of a well-formed absent
identifier on the empty store gives 404. -/
theorem update_nonexistent_nonempty_wit :
    update_event oidW updW emptyDB = (.error .notFound, emptyDB) ∧
    Err.notFound.status = 404 :=
  update_nonexistent_nonempty oidW updW emptyDB (by decide) (by decide) rfl

/-- C3 counterexample: get_by_id on a malformed identifier fails with
InvalidIdentifier mapped to HTTP 400, not with NotFound/404 — refuting
"fails with NotFound ... when the identifier string is malformed". -/
theorem get_event_malformed_cex :
    get_event "xyz" emptyDB = .error .invalidId ∧
    Err.invalidId.status = 400 ∧ Err.invalidId ≠ Err.notFound :=
  ⟨rfl, rfl, by decide⟩

/-- C3 amended: get_by_id fails with NotFound (404) when the well-formed
identifier matches no stored Event, and with InvalidIdentifier (400) when
the identifier string is malformed. -/
theorem get_event_error_cases (eid : String) (db : DB) :
    (isValidObjectId eid = true → db.event.lookup eid = none →
      get_event eid db = .error .notFound ∧ Err.notFound.status = 404) ∧
    (isValidObjectId eid = false →
      get_event eid db = .error .invalidId ∧ Err.invalidId.status = 400) := by
  constructor
  · intro hv hl
    exact ⟨by simp [get_event, to_object_id, hv, hl], rfl⟩
  · intro hv
    exact ⟨by simp [get_event, to_object_id, hv], rfl⟩

/-- C3 amended, witness: both branches at concrete identifiers. -/
theorem get_event_error_cases_wit :
    get_event oidW emptyDB = .error .notFound ∧
    get_event "xyz" emptyDB = .error .invalidId :=
  ⟨((get_event_error_cases oidW emptyDB).1 (by decide) rfl).1,
   ((get_event_error_cases "xyz" emptyDB).2 (by decide)).1⟩

/-- C4: every admin mutation called with a token not string-equal to the
configured secret fails with Unauthorized (401) and returns the store
unchanged — no persistence operation executes. -/
theorem admin_mutation_unauthorized (secret token : String)
    (h : token ≠ secret) (e : AdminEvent) (eid : String) (p : EventUpdate)
    (db : DB) :
    admin_add_event secret e token db = (.error .unauthorized, db) ∧
    admin_edit_event secret eid p token db = (.error .unauthorized, db) ∧
    admin_delete_event secret eid token db = (.error .unauthorized, db) ∧
    Err.unauthorized.status = 401 := by
  refine ⟨?_, ?_, ?_, rfl⟩ <;>
    simp [admin_add_event, admin_edit_event, admin_delete_event, h]

/-- C4 witness: a wrong token against a configured secret is rejected by all
three admin routes on the concrete store. -/
theorem admin_mutation_unauthorized_wit :
    admin_add_event "s3cret" adminEvW "wrong" dbW =
      (.error .unauthorized, dbW) ∧
    admin_edit_event "s3cret" oidW updW "wrong" dbW =
      (.error .unauthorized, dbW) ∧
    admin_delete_event "s3cret" oidW "wrong" dbW =
      (.error .unauthorized, dbW) := by
  have h := admin_mutation_unauthorized "s3cret" "wrong" (by decide)
    adminEvW oidW updW dbW
  exact ⟨h.1, h.2.1, h.2.2.1⟩

/-- C5: a purchase request whose well-formed event_id resolves to no stored
Event fails with NotFound (404) and leaves the ticketpurchase collection
unchanged. -/
theorem purchase_nonexistent_event (req : PurchaseRequest) (db : DB)
    (hv : isValidObjectId req.event_id = true)
    (hl : db.event.lookup req.event_id = none) :
    purchase_ticket req db = (.error .notFound, db) ∧
    (purchase_ticket req db).2.ticketpurchase = db.ticketpurchase ∧
    Err.notFound.status = 404 := by
  have h : purchase_ticket req db = (.error .notFound, db) := by
    simp [purchase_ticket, to_object_id, hv, hl]
  exact ⟨h, by rw [h], rfl⟩

/-- C5 witness: a purchase against a well-formed absent identifier on the
empty store gives 404 and writes nothing. -/
theorem purchase_nonexistent_event_wit :
    purchase_ticket reqMiss emptyDB = (.error .notFound, emptyDB) ∧
    (purchase_ticket reqMiss emptyDB).2.ticketpurchase = [] :=
  ⟨(purchase_nonexistent_event reqMiss emptyDB (by decide) rfl).1,
   (purchase_nonexistent_event reqMiss emptyDB (by decide) rfl).2.1⟩

/-- C6: an update whose payload has no present non-null field returns
updated=false and leaves the store exactly as it was, for any identifier,
without reaching storage. -/
theorem update_empty_payload_noop (eid : String) (p : EventUpdate) (db : DB)
    (h : p.hasUpdates = false) :
    update_event eid p db = (.ok ⟨false⟩, db) := by
  simp [update_event, h]

/-- C6 witness: the all-null payload is a no-op on the concrete store, even
with a malformed identifier (the identifier is never parsed). -/
theorem update_empty_payload_noop_wit :
    update_event "xyz" emptyUpdate dbW = (.ok ⟨false⟩, dbW) :=
  update_empty_payload_noop "xyz" emptyUpdate dbW (by decide)

/-- C7: updating an existing Event rewrites exactly the present non-null
payload fields of that document: the stored document becomes
applyEventUpdate of the old one (present fields overwritten, absent fields
retained, field by field), every other document and the ticketpurchase
collection are untouched. -/
theorem update_applies_only_present_fields (eid : String) (p : EventUpdate)
    (db : DB) (d : EventDoc)
    (hv : isValidObjectId eid = true)
    (hl : db.event.lookup eid = some d) :
    ((update_event eid p db).2.event.lookup eid =
        some (applyEventUpdate p d)) ∧
    (∀ k, k ≠ eid →
        (update_event eid p db).2.event.lookup k = db.event.lookup k) ∧
    (update_event eid p db).2.ticketpurchase = db.ticketpurchase ∧
    (applyEventUpdate p d).title = p.title.getD d.title ∧
    (applyEventUpdate p d).date = p.date.getD d.date ∧
    (applyEventUpdate p d).dj = p.dj.getD d.dj ∧
    (applyEventUpdate p d).price = p.price.getD d.price ∧
    (applyEventUpdate p d).description =
      (p.description.map some).getD d.description ∧
    (applyEventUpdate p d).image = (p.image.map some).getD d.image := by
  have hdesc : (applyEventUpdate p d).description =
      (p.description.map some).getD d.description := by
    cases hd : p.description <;> simp [applyEventUpdate, hd]
  have him : (applyEventUpdate p d).image =
      (p.image.map some).getD d.image := by
    cases hi : p.image <;> simp [applyEventUpdate, hi]
  cases hp : p.hasUpdates with
  | false =>
      have hid : applyEventUpdate p d = d := applyEventUpdate_of_no_updates p d hp
      have hu : update_event eid p db = (.ok ⟨false⟩, db) := by
        simp [update_event, hp]
      rw [hu]
      exact ⟨by rw [hid]; exact hl, fun k _ => rfl, rfl, rfl, rfl, rfl, rfl,
        hdesc, him⟩
  | true =>
      have hu : update_event eid p db =
          (.ok ⟨decide (applyEventUpdate p d ≠ d)⟩,
           { db with event := updateFirst eid (applyEventUpdate p) db.event }) := by
        simp [update_event, hp, to_object_id, hv, hl]
      rw [hu]
      exact ⟨lookup_updateFirst_self eid (applyEventUpdate p) db.event d hl,
        fun k hk => lookup_updateFirst_ne eid k hk (applyEventUpdate p) db.event,
        rfl, rfl, rfl, rfl, rfl, hdesc, him⟩

/-- C7 witness: updating title and price of the stored Event rewrites those
two fields and retains date, dj, description, image; purchases untouched. -/
theorem update_applies_only_present_fields_wit :
    (update_event oidW updW dbW).2.event.lookup oidW =
      some ⟨"Renamed Night", "2099-01-01", "DJ X", 12, none, none⟩ ∧
    (update_event oidW updW dbW).2.ticketpurchase = [] := by
  have h := update_applies_only_present_fields oidW updW dbW evW
    (by decide) (by decide)
  refine ⟨?_, h.2.2.1⟩
  rw [h.1]
  simp [applyEventUpdate, updW, evW]

/-- C8: Event creation rejects every payload carrying a negative price with
a ValidationError reported as HTTP 400 (store untouched), and accepts a
complete payload with price 0. -/
theorem create_event_price_validation :
    (∀ (p : RawEventPayload) (db : DB) (q : ℚ), p.price = some q → q < 0 →
        create_event p db = (.error .validation, db) ∧
        Err.validation.status = 400) ∧
    (create_event zeroPayload emptyDB).1 = .ok "oid0" := by
  constructor
  · intro p db q hq hneg
    refine ⟨?_, rfl⟩
    obtain ⟨t, dt, dj, pr, de, im⟩ := p
    simp only at hq
    subst hq
    cases t <;> cases dt <;> cases dj <;>
      simp [create_event, validateEvent, hneg]
  · rfl

/-- C8 witness: the concrete negative-price payload is rejected with a
validation error. -/
theorem create_event_price_validation_wit :
    create_event negPayload emptyDB = (.error .validation, emptyDB) :=
  (create_event_price_validation.1 negPayload emptyDB (-1) rfl
    (by norm_num)).1

/-- C9: deleting a stored Event by its identifier (keys unique, as the
store's id index guarantees) returns deleted=true and removes the record;
an immediate second delete of the same identifier fails with NotFound
(404). -/
theorem delete_event_twice (eid : String) (db : DB) (d : EventDoc)
    (hnd : (db.event.map Prod.fst).Nodup)
    (hv : isValidObjectId eid = true)
    (hl : db.event.lookup eid = some d) :
    delete_event eid db =
      (.ok ⟨true⟩, { db with event := removeFirst eid db.event }) ∧
    ({ db with event := removeFirst eid db.event } : DB).event.lookup eid
      = none ∧
    delete_event eid { db with event := removeFirst eid db.event } =
      (.error .notFound, { db with event := removeFirst eid db.event }) ∧
    Err.notFound.status = 404 := by
  have hgone : (removeFirst eid db.event).lookup eid = none :=
    lookup_removeFirst_self eid db.event hnd
  refine ⟨?_, hgone, ?_, rfl⟩
  · simp [delete_event, to_object_id, hv, hl]
  · simp [delete_event, to_object_id, hv, hgone]

/-- C9 witness: double delete on the concrete one-event store. -/
theorem delete_event_twice_wit :
    delete_event oidW dbW = (.ok ⟨true⟩, emptyDB) ∧
    delete_event oidW emptyDB = (.error .notFound, emptyDB) := by
  have h := delete_event_twice oidW dbW evW (by simp [dbW])
    (by decide) (by decide)
  have he : ({ dbW with event := removeFirst oidW dbW.event } : DB)
      = emptyDB := by
    simp [dbW, emptyDB, removeFirst]
  rw [he] at h
  exact ⟨h.1, h.2.2.1⟩

/-- C10: with the ADMIN_TOKEN environment variable unset, the server-held
secret defaults to the empty string, so every admin mutation called with the
empty-string token passes the authorization gate: add performs the insert,
edit and delete proceed to the underlying handlers. -/
theorem admin_token_default_empty (e : AdminEvent) (eid : String)
    (p : EventUpdate) (db : DB) :
    ADMIN_TOKEN_of_env none = "" ∧
    admin_add_event (ADMIN_TOKEN_of_env none) e "" db =
      (.ok (freshId db.event.length),
       { db with event := db.event ++ [(freshId db.event.length, e.toDoc)] }) ∧
    admin_edit_event (ADMIN_TOKEN_of_env none) eid p "" db =
      update_event eid p db ∧
    admin_delete_event (ADMIN_TOKEN_of_env none) eid "" db =
      delete_event eid db := by
  refine ⟨rfl, ?_, ?_, ?_⟩ <;>
    simp [admin_add_event, admin_edit_event, admin_delete_event,
      ADMIN_TOKEN_of_env, insertEventDoc]


end Baci
